import Mathlib

/-!
Shallow embedding of `kenya_compliance/apis/api_builder.py` (class
`EndpointsBuilder`): a configurable outbound-request dispatcher.

The class holds a mutable configuration (method, url, payload, headers, error,
success/error callback handlers) set through plain property setters, and a
single entry point `make_remote_call(doctype, document_name)` that validates
the configuration, derives a route identifier from the URL, creates an audit
record via `frappe.integrations.utils.create_request_log`, performs the
network call via `asyncio.run(make_post_request(url, payload, headers))`,
and either invokes the success callback and updates the last-request-date
tracker (result code "000"), invokes the error callback (any other result
code), or — on a transport fault — logs the exception and raises a blocking
user-visible error.

Effects are modelled as an explicit event trace; the outcome of the network
primitive is an input (`NetOutcome`), as is the name assigned to the audit
record by the external audit service.  Callback handlers are opaque and are
identified by a numeric tag; invoking one is an event carrying its tag and
its arguments.
-/

/-! ### Route derivation: `parse.urlparse(url).path` and `path.split('/')[-1]`

Faithful rendering of the parts of CPython 3.11 (current patch releases,
verified against 3.11.6) `urllib.parse` that produce `urlparse(url).path`,
following `urlsplit` and `urlparse` line by line: leading WHATWG
C0-control-or-space strip; removal of unsafe bytes (tab, CR, LF); scheme
extraction (first character ASCII alphabetic, all scheme characters before
the colon, result lowercased); netloc removal after a leading `//`, raising
`ValueError("Invalid IPv6 URL")` when the netloc contains `[` without `]`
or `]` without `[`, and validating a bracketed host via
`_check_bracketed_host` (IPvFuture pattern, else `ipaddress.ip_address`,
which must yield IPv6); fragment then query removal; and `urlparse`'s
`;params` split, performed only when the extracted scheme is in
`uses_params` and the path contains a `;`.  Raising is modelled by
returning `none`.  The NFKC check `_checknetloc` returns immediately for
every ASCII (or NFKC-stable) netloc and is modelled as not raising. -/

/-- `url.lstrip(_WHATWG_C0_CONTROL_OR_SPACE)`: the stripped set is exactly
the characters with code points 0 through 32. -/
def lstripControlSpace (l : List Char) : List Char :=
  l.dropWhile (fun c => decide (c.toNat ≤ 32))

def removeUnsafe (l : List Char) : List Char :=
  l.filter (fun c => decide (c ≠ '\t' ∧ c ≠ '\r' ∧ c ≠ '\n'))

/-- Python `str.split(sep)` for a one-character separator: splits at every
occurrence, keeping empty pieces; never returns an empty list. -/
def splitOnSep (sep : Char) : List Char → List (List Char)
  | [] => [[]]
  | c :: rest =>
      if c = sep then [] :: splitOnSep sep rest
      else
        match splitOnSep sep rest with
        | [] => [[c]]
        | h :: t => (c :: h) :: t

def isDecDigit (c : Char) : Bool := c.isDigit

def isHexDigitChar (c : Char) : Bool :=
  c.isDigit || (decide ('a' ≤ c) && decide (c ≤ 'f')) ||
    (decide ('A' ≤ c) && decide (c ≤ 'F'))

def octetVal (s : List Char) : Nat :=
  s.foldl (fun n c => n * 10 + (c.toNat - 48)) 0

/-- `ipaddress.IPv4Address._parse_octet`: nonempty, ASCII decimal digits
only, at most 3 characters, no leading zero (except "0" itself), value at
most 255. -/
def parse_octet_ok (s : List Char) : Bool :=
  !s.isEmpty && s.all isDecDigit && decide (s.length ≤ 3) &&
    (decide (s = ['0']) || decide (s.headD 'x' ≠ '0')) &&
    decide (octetVal s ≤ 255)

/-- `ipaddress.IPv4Address._ip_int_from_string` as a validity test: a
nonempty string of exactly four valid octets separated by dots. -/
def ipv4_address_ok (s : List Char) : Bool :=
  !s.isEmpty &&
    (let octets := splitOnSep '.' s
     decide (octets.length = 4) && octets.all parse_octet_ok)

/-- `ipaddress.IPv6Address._parse_hextet` as a validity test: hex digits
only, at most 4 of them, and nonempty (`int('', 16)` raises). -/
def parse_hextet_ok (s : List Char) : Bool :=
  s.all isHexDigitChar && decide (s.length ≤ 4) && !s.isEmpty

/-- Core of `ipaddress.IPv6Address._ip_int_from_string` after the optional
IPv4 suffix has been substituted: at most 9 parts, at most one empty
interior part (`::`); an empty first (resp. last) part only immediately
before (resp. after) the skipped part; at least one zero group skipped when
`::` is present, else exactly 8 parts with nonempty endpoints; every
copied part a valid hextet. -/
def ipv6_parts_ok (parts : List (List Char)) : Bool :=
  decide (parts.length ≤ 9) &&
    (let inner := (parts.drop 1).dropLast
     let emptyCount := (inner.filter (fun x => x.isEmpty)).length
     if 2 ≤ emptyCount then false
     else if emptyCount = 1 then
       let skip := 1 + inner.findIdx (fun x => x.isEmpty)
       let n := parts.length
       let head := parts.headD ['x']
       let lastp := parts.getLastD ['x']
       let hi := if head.isEmpty then skip - 1 else skip
       let lo0 := n - skip - 1
       let lo := if lastp.isEmpty then lo0 - 1 else lo0
       (if head.isEmpty then decide (skip = 1) else true) &&
         (if lastp.isEmpty then decide (skip = n - 2) else true) &&
         decide (hi + lo ≤ 7) &&
         (parts.take hi).all parse_hextet_ok &&
         (parts.drop (n - lo)).all parse_hextet_ok
     else
       decide (parts.length = 8) &&
         !(parts.headD ['x']).isEmpty && !(parts.getLastD ['x']).isEmpty &&
         parts.all parse_hextet_ok)

/-- `ipaddress.IPv6Address._ip_int_from_string` as a validity test (scope
already removed): nonempty, at least 3 colon-separated parts, and — after
replacing a dotted last part by two hextets when it is a valid IPv4 address
(invalid dotted suffixes raise) — a valid hextet sequence. -/
def ipv6_address_ok (s : List Char) : Bool :=
  !s.isEmpty &&
    (let parts0 := splitOnSep ':' s
     decide (3 ≤ parts0.length) &&
       (let lastP := parts0.getLastD []
        if '.' ∈ lastP then
          ipv4_address_ok lastP && ipv6_parts_ok (parts0.dropLast ++ [['0'], ['0']])
        else ipv6_parts_ok parts0))

/-- `ipaddress.IPv6Address` construction as a validity test, including the
`_split_scope_id` handling: an optional `%scope` suffix whose scope is
nonempty and contains no further `%`. -/
def ipv6_ok (h : List Char) : Bool :=
  if '%' ∈ h then
    let addr := h.takeWhile (fun c => decide (c ≠ '%'))
    let scope := (h.dropWhile (fun c => decide (c ≠ '%'))).drop 1
    !scope.isEmpty && decide ('%' ∉ scope) && ipv6_address_ok addr
  else ipv6_address_ok h

/-- `urllib.parse._check_bracketed_host` as a validity test: a host
starting with lowercase `v` must match `\Av[a-fA-F0-9]+\..+\Z` (the final
`.+` matches anything but a newline); any other host must be accepted by
`ipaddress.ip_address` as an IPv6 address (an IPv4 address in brackets also
raises, so validity is exactly IPv6 validity). -/
def bracketed_host_ok : List Char → Bool
  | 'v' :: rest =>
      let hx := rest.takeWhile isHexDigitChar
      (!hx.isEmpty &&
        match rest.drop hx.length with
        | '.' :: tail => !tail.isEmpty && decide ('\n' ∉ tail)
        | _ => false)
  | h => ipv6_ok h

def schemeChar (c : Char) : Bool :=
  c.isAlphanum || c == '+' || c == '-' || c == '.'

def validScheme : List Char → Bool
  | [] => false
  | c :: rest => c.isAlpha && rest.all schemeChar

/-- Scheme extraction of `urlsplit`: returns the lowercased scheme (`[]`
when the URL carries none, matching the default `scheme=''`) and the rest
of the URL. -/
def splitScheme (l : List Char) : List Char × List Char :=
  let pre := l.takeWhile (fun c => decide (c ≠ ':'))
  if pre.length < l.length && validScheme pre then
    (pre.map Char.toLower, l.drop (pre.length + 1))
  else ([], l)

/-- Netloc step of `urlsplit`: after a leading `//`, the netloc runs to the
first of `/?#`; a netloc containing `[` without `]` or `]` without `[`
raises `ValueError("Invalid IPv6 URL")`, and a bracketed host (the text
between the first `[` and the first `]` after it) that fails
`_check_bracketed_host` raises `ValueError`; both are modelled as `none`. -/
def urlsplitTail : List Char → Option (List Char)
  | '/' :: '/' :: rest =>
      let netloc := rest.takeWhile (fun c => decide (c ≠ '/' ∧ c ≠ '?' ∧ c ≠ '#'))
      if ('[' ∈ netloc ∧ ']' ∉ netloc) ∨ (']' ∈ netloc ∧ '[' ∉ netloc) then none
      else if '[' ∈ netloc ∧ ']' ∈ netloc then
        let bh := ((netloc.dropWhile (fun c => decide (c ≠ '['))).drop 1).takeWhile
          (fun c => decide (c ≠ ']'))
        if bracketed_host_ok bh then
          some (rest.dropWhile (fun c => decide (c ≠ '/' ∧ c ≠ '?' ∧ c ≠ '#')))
        else none
      else some (rest.dropWhile (fun c => decide (c ≠ '/' ∧ c ≠ '?' ∧ c ≠ '#')))
  | l => some l

def removeFragment (l : List Char) : List Char :=
  l.takeWhile (fun c => decide (c ≠ '#'))

def removeQuery (l : List Char) : List Char :=
  l.takeWhile (fun c => decide (c ≠ '?'))

/-- Schemes for which `urlparse` separates `;params` from the path
(`urllib.parse.uses_params`, verbatim). -/
def uses_params : List String :=
  ["", "ftp", "hdl", "prospero", "http", "imap",
   "https", "shttp", "rtsp", "rtspu", "sip", "sips",
   "mms", "sftp", "tel"]

/-- The `_splitparams` step of `urlparse`, restricted to the path it keeps:
when the path contains `/`, the split is at the first `;` inside the last
segment (no change when that segment has no `;`); otherwise at the first
`;`.  The identity when the path has no `;` at all. -/
def splitParams (l : List Char) : List Char :=
  if ';' ∈ l then
    if '/' ∈ l then
      let seg := (l.reverse.takeWhile (fun c => decide (c ≠ '/'))).reverse
      if ';' ∈ seg then
        l.take (l.length - seg.length) ++ seg.takeWhile (fun c => decide (c ≠ ';'))
      else l
    else l.takeWhile (fun c => decide (c ≠ ';'))
  else l

/-- Characters of `parse.urlparse(url).path`, or `none` when `urlparse`
raises `ValueError`. -/
def urlparse_path_chars (url : String) : Option (List Char) :=
  let su := splitScheme (removeUnsafe (lstripControlSpace url.data))
  match urlsplitTail su.2 with
  | none => none
  | some tail =>
      let p := removeQuery (removeFragment tail)
      some (if String.mk su.1 ∈ uses_params then splitParams p else p)

/-- `parse.urlparse(url).path` as a string (`none` when `urlparse` raises). -/
def urlparse_path (url : String) : Option String :=
  (urlparse_path_chars url).map String.mk

/-- Python `str.split('/')`: splits at every `'/'`, keeping empty pieces;
never returns an empty list. -/
def splitOnSlash : List Char → List (List Char)
  | [] => [[]]
  | c :: rest =>
      if c = '/' then [] :: splitOnSlash rest
      else
        match splitOnSlash rest with
        | [] => [[c]]
        | h :: t => (c :: h) :: t

/-- Route derivation `f"/{parsed_url.path.split('/')[-1]}"` applied to an
already-parsed path.  `split` never returns an empty list, so the
`getLastD` fallback is unreachable. -/
def route_of_path (p : List Char) : String :=
  "/" ++ String.mk ((splitOnSlash p).getLastD [])

/-- Opaque request body (`dict` in the source, stored verbatim). -/
abbrev Payload := List (String × String)

/-- Header mapping (`dict` in the source, stored verbatim). -/
abbrev Headers := List (String × String)

/-- A completed response from the remote server: the fields the dispatcher
reads (`resultCd`, `resultDt`) plus the rest of the mapping, kept opaque so
that "the full response" is meaningful. -/
structure Response where
  resultCd : String
  resultDt : String
  extra : List (String × String)
deriving DecidableEq, Repr

/-- Outcome of `asyncio.run(make_post_request(...))`: a completed response,
or one of the three transport faults caught by the dispatcher
(`aiohttp.client_exceptions.ClientConnectorError`,
`aiohttp.client_exceptions.ClientOSError`,
`asyncio.exceptions.TimeoutError`). -/
inductive NetOutcome where
  | ok (response : Response)
  | clientConnectorError (detail : String)
  | clientOSError (detail : String)
  | timeoutError (detail : String)
deriving DecidableEq, Repr

/-- The mutable configuration fields of `EndpointsBuilder` (the source names
them `_method`, `_url`, ... ; the leading underscore is dropped here).
Callback handlers are opaque callables, identified by a numeric tag. -/
structure EndpointsBuilder where
  method : String
  url : Option String
  payload : Option Payload
  headers : Option Headers
  error : Option String
  success_callback_handler : Option Nat
  error_callback_handler : Option Nat
deriving DecidableEq, Repr

/-- Fresh dispatcher, as built by the constructor. -/
def initBuilder : EndpointsBuilder :=
  ⟨"POST", none, none, none, none, none, none⟩

/-! ### Property getters and setters (plain get/set, as in the source) -/

def method_get (b : EndpointsBuilder) : String := b.method

def method_set (b : EndpointsBuilder) (new_method : String) : EndpointsBuilder :=
  { b with method := new_method }

def url_get (b : EndpointsBuilder) : Option String := b.url

def url_set (b : EndpointsBuilder) (new_url : String) : EndpointsBuilder :=
  { b with url := some new_url }

def payload_get (b : EndpointsBuilder) : Option Payload := b.payload

def payload_set (b : EndpointsBuilder) (new_payload : Payload) : EndpointsBuilder :=
  { b with payload := some new_payload }

def error_get (b : EndpointsBuilder) : Option String := b.error

def error_set (b : EndpointsBuilder) (new_error : String) : EndpointsBuilder :=
  { b with error := some new_error }

def headers_get (b : EndpointsBuilder) : Option Headers := b.headers

def headers_set (b : EndpointsBuilder) (new_headers : Headers) : EndpointsBuilder :=
  { b with headers := some new_headers }

def success_callback_get (b : EndpointsBuilder) : Option Nat := b.success_callback_handler

def success_callback_set (b : EndpointsBuilder) (callback : Nat) : EndpointsBuilder :=
  { b with success_callback_handler := some callback }

def error_callback_get (b : EndpointsBuilder) : Option Nat := b.error_callback_handler

def error_callback_set (b : EndpointsBuilder) (callback : Nat) : EndpointsBuilder :=
  { b with error_callback_handler := some callback }

/-! ### `make_remote_call` as an event trace -/

/-- Observable effects of one execution of `make_remote_call`, in order. -/
inductive Event where
  /-- Blocking user-visible error: `frappe.throw(message, ..., title=title)`. -/
  | throwMsg (message : String) (title : String)
  /-- Audit record: `create_request_log(data=..., is_remote_request=...,
  service_name=..., request_headers=..., url=..., reference_docname=...,
  reference_doctype=...)`. -/
  | createRequestLog (data : Option Payload) (is_remote_request : Bool)
      (service_name : String) (request_headers : Headers) (url : String)
      (reference_docname : Option String) (reference_doctype : Option String)
  /-- Network attempt `asyncio.run(make_post_request(url, payload, headers))`;
  the primitive receives only these three arguments. -/
  | makePostRequest (url : String) (payload : Option Payload) (headers : Headers)
  /-- Success handler invocation `self._success_callback_handler(response)`. -/
  | successCallback (handler : Nat) (response : Response)
  /-- Tracker update `update_last_request_date(response["resultDt"], route_path)`. -/
  | updateLastRequestDate (date : String) (route : String)
  /-- Error handler invocation `self._error_callback_handler(response,
  url=route_path, doctype=..., document_name=..., integration_reqeust_name=...)`. -/
  | errorCallback (handler : Nat) (response : Response) (url : String)
      (doctype : Option String) (document_name : Option String)
      (integration_request_name : String)
  /-- Diagnostic log entry `etims_logger.exception(error, exc_info=True)`. -/
  | logException (detail : String)
  /-- Unhandled exception escaping `make_remote_call`: `parse.urlparse`
  raises `ValueError` (line 98, after validation, before
  `create_request_log`, outside the `try`), aborting the dispatch. -/
  | raiseValueError (message : String)
deriving DecidableEq, Repr

/-- Result of one execution: the dispatcher object afterwards (`self`) and
the ordered trace of observable effects. -/
structure DispatchResult where
  selfState : EndpointsBuilder
  events : List Event
deriving DecidableEq, Repr

/-- Entry point `EndpointsBuilder.make_remote_call(doctype, document_name)`.

`integration_request_name` is the name the external audit service assigns to
the request log it creates; `net` is the outcome of the network primitive.
`frappe.throw` raises, so a trace ends at a `throwMsg` event. -/
def make_remote_call (b : EndpointsBuilder) (doctype : Option String)
    (document_name : Option String) (integration_request_name : String)
    (net : NetOutcome) : DispatchResult :=
  match b.url, b.headers, b.success_callback_handler, b.error_callback_handler with
  | some u, some hdrs, some scb, some ecb =>
    match urlparse_path_chars u with
    | none => ⟨b, [.raiseValueError "Invalid IPv6 URL"]⟩
    | some pc =>
      let rp := route_of_path pc
      let auditEv : Event :=
        .createRequestLog b.payload true "etims" hdrs u document_name doctype
      let callEv : Event := .makePostRequest u b.payload hdrs
      match net with
      | .ok resp =>
          if resp.resultCd = "000" then
            ⟨b, [auditEv, callEv, .successCallback scb resp,
                 .updateLastRequestDate resp.resultDt rp]⟩
          else
            ⟨b, [auditEv, callEv,
                 .errorCallback ecb resp rp doctype document_name
                   integration_request_name]⟩
      | .clientConnectorError d =>
          ⟨b, [auditEv, callEv, .logException d,
               .throwMsg "Connection failed" "Connection Error"]⟩
      | .clientOSError d =>
          ⟨b, [auditEv, callEv, .logException d,
               .throwMsg "Connection reset by peer" "Connection Error"]⟩
      | .timeoutError d =>
          ⟨b, [auditEv, callEv, .logException d,
               .throwMsg "Timeout Encountered" "Timeout Error"]⟩
  | _, _, _, _ =>
      ⟨b, [.throwMsg "Please check that all required request parameters are supplied."
             "Setup Error"]⟩

/-! ### Event classifiers -/

def isSuccessCb : Event → Bool
  | .successCallback _ _ => true
  | _ => false

def isErrorCb : Event → Bool
  | .errorCallback _ _ _ _ _ _ => true
  | _ => false

def isUpdate : Event → Bool
  | .updateLastRequestDate _ _ => true
  | _ => false

def isThrow : Event → Bool
  | .throwMsg _ _ => true
  | _ => false

/-- Claim C1: if the dispatch reaches the network call (the URL parses, so
`urlparse_path_chars` yields a path) and the call completes with a response
whose `resultCd` is the success sentinel "000", then the success handler is
invoked with the full response exactly once, the error handler is never
invoked, and the last-request-date tracker is updated exactly once with the
response's `resultDt` and the route identifier derived from the URL. -/
theorem success_path_invokes_success_handler_once
    (m u : String) (p : Option Payload) (hd : Headers) (e : Option String)
    (scb ecb : Nat) (d dn : Option String) (irn : String) (resp : Response)
    (pc : List Char) (hp : urlparse_path_chars u = some pc)
    (hcd : resp.resultCd = "000") :
    ((make_remote_call ⟨m, some u, p, some hd, e, some scb, some ecb⟩
        d dn irn (NetOutcome.ok resp)).events.filter isSuccessCb
        = [Event.successCallback scb resp]) ∧
    ((make_remote_call ⟨m, some u, p, some hd, e, some scb, some ecb⟩
        d dn irn (NetOutcome.ok resp)).events.filter isErrorCb = []) ∧
    ((make_remote_call ⟨m, some u, p, some hd, e, some scb, some ecb⟩
        d dn irn (NetOutcome.ok resp)).events.filter isUpdate
        = [Event.updateLastRequestDate resp.resultDt (route_of_path pc)]) := by
  simp [make_remote_call, hp, hcd, isSuccessCb, isErrorCb, isUpdate]

theorem success_path_invokes_success_handler_once_witness :
    (urlparse_path_chars "https://host/api/v1/selectInitInfo"
        = some "/api/v1/selectInitInfo".data) ∧
    ((make_remote_call ⟨"POST", some "https://host/api/v1/selectInitInfo", none,
        some [("tin", "P000000000X")], none, some 1, some 2⟩
        none none "REQ-0001" (NetOutcome.ok ⟨"000", "20240101000000", []⟩)).events.filter
        isSuccessCb = [Event.successCallback 1 ⟨"000", "20240101000000", []⟩]) ∧
    ((make_remote_call ⟨"POST", some "https://host/api/v1/selectInitInfo", none,
        some [("tin", "P000000000X")], none, some 1, some 2⟩
        none none "REQ-0001" (NetOutcome.ok ⟨"000", "20240101000000", []⟩)).events.filter
        isErrorCb = []) ∧
    ((make_remote_call ⟨"POST", some "https://host/api/v1/selectInitInfo", none,
        some [("tin", "P000000000X")], none, some 1, some 2⟩
        none none "REQ-0001" (NetOutcome.ok ⟨"000", "20240101000000", []⟩)).events.filter
        isUpdate = [Event.updateLastRequestDate "20240101000000"
          (route_of_path "/api/v1/selectInitInfo".data)]) :=
  ⟨by decide,
    success_path_invokes_success_handler_once "POST" "https://host/api/v1/selectInitInfo"
      none [("tin", "P000000000X")] none 1 2 none none "REQ-0001"
      ⟨"000", "20240101000000", []⟩ "/api/v1/selectInitInfo".data (by decide) rfl⟩

/-- Claim C2: if the dispatch reaches the network call and the call
completes with a response whose `resultCd` differs from "000", the error
handler is invoked exactly once with the response, the derived route
identifier, the supplied doctype and document name, and the audit-record
identifier; the success handler is never invoked and the tracker is not
updated. -/
theorem error_path_invokes_error_handler_once
    (m u : String) (p : Option Payload) (hd : Headers) (e : Option String)
    (scb ecb : Nat) (d dn : Option String) (irn : String) (resp : Response)
    (pc : List Char) (hp : urlparse_path_chars u = some pc)
    (hcd : resp.resultCd ≠ "000") :
    ((make_remote_call ⟨m, some u, p, some hd, e, some scb, some ecb⟩
        d dn irn (NetOutcome.ok resp)).events.filter isErrorCb
        = [Event.errorCallback ecb resp (route_of_path pc) d dn irn]) ∧
    ((make_remote_call ⟨m, some u, p, some hd, e, some scb, some ecb⟩
        d dn irn (NetOutcome.ok resp)).events.filter isSuccessCb = []) ∧
    ((make_remote_call ⟨m, some u, p, some hd, e, some scb, some ecb⟩
        d dn irn (NetOutcome.ok resp)).events.filter isUpdate = []) := by
  simp [make_remote_call, hp, hcd, isSuccessCb, isErrorCb, isUpdate]

theorem error_path_invokes_error_handler_once_witness :
    (urlparse_path_chars "https://host/api/v1/saveItem"
        = some "/api/v1/saveItem".data) ∧
    ((make_remote_call ⟨"POST", some "https://host/api/v1/saveItem", none,
        some [], none, some 1, some 2⟩
        (some "Item") (some "ITM-1") "REQ-0002"
        (NetOutcome.ok ⟨"801", "20240101000000", []⟩)).events.filter isErrorCb
        = [Event.errorCallback 2 ⟨"801", "20240101000000", []⟩
            (route_of_path "/api/v1/saveItem".data) (some "Item") (some "ITM-1")
            "REQ-0002"]) ∧
    ((make_remote_call ⟨"POST", some "https://host/api/v1/saveItem", none,
        some [], none, some 1, some 2⟩
        (some "Item") (some "ITM-1") "REQ-0002"
        (NetOutcome.ok ⟨"801", "20240101000000", []⟩)).events.filter isSuccessCb = []) ∧
    ((make_remote_call ⟨"POST", some "https://host/api/v1/saveItem", none,
        some [], none, some 1, some 2⟩
        (some "Item") (some "ITM-1") "REQ-0002"
        (NetOutcome.ok ⟨"801", "20240101000000", []⟩)).events.filter isUpdate = []) :=
  ⟨by decide,
    error_path_invokes_error_handler_once "POST" "https://host/api/v1/saveItem"
      none [] none 1 2 (some "Item") (some "ITM-1") "REQ-0002"
      ⟨"801", "20240101000000", []⟩ "/api/v1/saveItem".data (by decide) (by decide)⟩

/-- Claim C3: when any of url, headers, success handler, or error handler is unset,
`make_remote_call` raises the setup error before any other effect: the whole
trace is the single blocking throw, so no audit record is created and no
network call occurs. -/
theorem missing_config_throws_setup_error
    (b : EndpointsBuilder) (d dn : Option String) (irn : String) (net : NetOutcome)
    (h : b.url = none ∨ b.headers = none ∨ b.success_callback_handler = none ∨
      b.error_callback_handler = none) :
    (make_remote_call b d dn irn net).events
      = [Event.throwMsg "Please check that all required request parameters are supplied."
          "Setup Error"] := by
  obtain ⟨m, u, p, hd, e, s, ec⟩ := b
  rcases h with h | h | h | h <;> simp_all <;>
    cases u <;> cases hd <;> cases s <;> cases ec <;> simp_all [make_remote_call]

theorem missing_config_throws_setup_error_witness :
    (make_remote_call initBuilder none none "REQ-0003"
        (NetOutcome.ok ⟨"000", "20240101000000", []⟩)).events
      = [Event.throwMsg "Please check that all required request parameters are supplied."
          "Setup Error"] :=
  missing_config_throws_setup_error initBuilder none none "REQ-0003"
    (NetOutcome.ok ⟨"000", "20240101000000", []⟩) (Or.inl rfl)

/-- Claim C4: when the network call is reached (the URL parses) and raises a
transport fault, neither handler is invoked; the trace is the audit record,
the network attempt, a diagnostic log entry, and then the blocking error
whose message depends on the fault kind: "Connection failed" for
`ClientConnectorError`, "Connection reset by peer" for `ClientOSError`, and
"Timeout Encountered" for `TimeoutError`. -/
theorem transport_fault_logs_and_throws
    (m u : String) (p : Option Payload) (hd : Headers) (e : Option String)
    (scb ecb : Nat) (d dn : Option String) (irn dtl : String)
    (pc : List Char) (hp : urlparse_path_chars u = some pc) :
    ((make_remote_call ⟨m, some u, p, some hd, e, some scb, some ecb⟩
        d dn irn (NetOutcome.clientConnectorError dtl)).events
      = [Event.createRequestLog p true "etims" hd u dn d,
         Event.makePostRequest u p hd,
         Event.logException dtl,
         Event.throwMsg "Connection failed" "Connection Error"]) ∧
    ((make_remote_call ⟨m, some u, p, some hd, e, some scb, some ecb⟩
        d dn irn (NetOutcome.clientOSError dtl)).events
      = [Event.createRequestLog p true "etims" hd u dn d,
         Event.makePostRequest u p hd,
         Event.logException dtl,
         Event.throwMsg "Connection reset by peer" "Connection Error"]) ∧
    ((make_remote_call ⟨m, some u, p, some hd, e, some scb, some ecb⟩
        d dn irn (NetOutcome.timeoutError dtl)).events
      = [Event.createRequestLog p true "etims" hd u dn d,
         Event.makePostRequest u p hd,
         Event.logException dtl,
         Event.throwMsg "Timeout Encountered" "Timeout Error"]) := by
  refine ⟨?_, ?_, ?_⟩ <;> simp [make_remote_call, hp]

theorem transport_fault_logs_and_throws_witness :
    (urlparse_path_chars "https://host/api/v1/insurances"
        = some "/api/v1/insurances".data) ∧
    ((make_remote_call ⟨"POST", some "https://host/api/v1/insurances", none,
        some [], none, some 1, some 2⟩ none none "REQ-0008"
        (NetOutcome.clientConnectorError "refused")).events
      = [Event.createRequestLog none true "etims" [] "https://host/api/v1/insurances"
           none none,
         Event.makePostRequest "https://host/api/v1/insurances" none [],
         Event.logException "refused",
         Event.throwMsg "Connection failed" "Connection Error"]) ∧
    ((make_remote_call ⟨"POST", some "https://host/api/v1/insurances", none,
        some [], none, some 1, some 2⟩ none none "REQ-0008"
        (NetOutcome.clientOSError "refused")).events
      = [Event.createRequestLog none true "etims" [] "https://host/api/v1/insurances"
           none none,
         Event.makePostRequest "https://host/api/v1/insurances" none [],
         Event.logException "refused",
         Event.throwMsg "Connection reset by peer" "Connection Error"]) ∧
    ((make_remote_call ⟨"POST", some "https://host/api/v1/insurances", none,
        some [], none, some 1, some 2⟩ none none "REQ-0008"
        (NetOutcome.timeoutError "refused")).events
      = [Event.createRequestLog none true "etims" [] "https://host/api/v1/insurances"
           none none,
         Event.makePostRequest "https://host/api/v1/insurances" none [],
         Event.logException "refused",
         Event.throwMsg "Timeout Encountered" "Timeout Error"]) :=
  ⟨by decide,
    transport_fault_logs_and_throws "POST" "https://host/api/v1/insurances"
      none [] none 1 2 none none "REQ-0008" "refused"
      "/api/v1/insurances".data (by decide)⟩

/-- Claim C9 counterexample: the method setter stores a value outside the verbs
enumerated by its signature ("GET", "PUT", "PATCH") and outside the default
"POST": after `method_set b "DELETE"` the getter returns "DELETE", so
"setting method does not store a non-enumerated value" is false. -/
theorem method_set_stores_non_enumerated_verb :
    method_get (method_set initBuilder "DELETE") = "DELETE" ∧
    ("DELETE" ≠ "GET" ∧ "DELETE" ≠ "PUT" ∧ "DELETE" ≠ "PATCH" ∧ "DELETE" ≠ "POST") := by
  decide

/-- Claim C9 amended: the method setter performs no validation at run time — for
every value (enumerated verb or not) it stores the value verbatim and the
getter returns it; the enumeration in the setter's signature is a static
type annotation only. -/
theorem method_set_stores_verbatim (b : EndpointsBuilder) (v : String) :
    method_get (method_set b v) = v := rfl

/-- Claim C10 counterexample: the `error` property setter is an operation of the
class that writes the `lastError` field: applied to a dispatcher whose error
field is `none`, it leaves it holding `some "boom"`. -/
theorem error_set_writes_error_field :
    (error_set initBuilder "boom").error = some "boom" ∧ initBuilder.error = none := by
  decide

/-- Claim C10 amended: `make_remote_call` never mutates any field of the
dispatcher — after any execution (success, business error, transport fault,
or configuration error) the dispatcher state equals the state before the
call — and no operation of the class other than the dedicated `error` setter
writes the `lastError` field. -/
theorem make_remote_call_preserves_state :
    (∀ (b : EndpointsBuilder) (d dn : Option String) (irn : String) (net : NetOutcome),
      (make_remote_call b d dn irn net).selfState = b) ∧
    (∀ (b : EndpointsBuilder) (s : String),
      (method_set b s).error = b.error ∧ (url_set b s).error = b.error) ∧
    (∀ (b : EndpointsBuilder) (p : Payload),
      (payload_set b p).error = b.error ∧ (headers_set b p).error = b.error) ∧
    (∀ (b : EndpointsBuilder) (n : Nat),
      (success_callback_set b n).error = b.error ∧
      (error_callback_set b n).error = b.error) := by
  refine ⟨?_, fun b s => ⟨rfl, rfl⟩, fun b p => ⟨rfl, rfl⟩, fun b n => ⟨rfl, rfl⟩⟩
  intro b d dn irn net
  obtain ⟨m, u, p, hd, e, s, ec⟩ := b
  cases u <;> cases hd <;> cases s <;> cases ec <;> cases net <;>
    first
      | rfl
      | (simp only [make_remote_call]
         split <;> first | rfl | (split <;> rfl))

